import Mathlib

/-!
# zypper: RPM callback receivers (`src/zypper-rpm-callbacks.h`) and `Out` (`src/output/Out.h`)

A shallow embedding of the report receivers that zypper registers with the
transaction engine.  Every receiver method is a function on an explicit
`World`: the global options it reads, the operator input still unread, the
function-static variables of the header, and the trace of output statements
executed so far, in program order.
-/

namespace Zypper

/-! ## Data model -/

/-- Verbosity levels, `Out::Verbosity` (Out.h:22-31). -/
inductive Verbosity where
  | QUIET
  | NORMAL
  | HIGH
  | DEBUG
  deriving DecidableEq

/-- Numeric value of the enumerators of `Out::Verbosity` (Out.h:25-30). -/
def Verbosity.toNat : Verbosity → Nat
  | .QUIET => 0
  | .NORMAL => 1
  | .HIGH => 2
  | .DEBUG => 3

instance : LE Verbosity := ⟨fun a b => a.toNat ≤ b.toNat⟩

instance (a b : Verbosity) : Decidable (a ≤ b) :=
  inferInstanceAs (Decidable (a.toNat ≤ b.toNat))

/-- The two process streams a statement can finally reach. -/
inductive Sink where
  | stdout
  | stderr
  deriving DecidableEq

/-- The stream expressions the receivers write to: the plain `cout` / `cerr`,
the conditional streams `cout_n`, `cout_v`, `cerr_vv`, and the logger `DBG`. -/
inductive Chan where
  | cout
  | cerr
  | cout_n
  | cout_v
  | cerr_vv
  | DBG
  deriving DecidableEq

/-- Modelled from the spec: the conditional-stream macros `cout_n`, `cout_v` and
`cerr_vv` come from `zypper.h`, which is not under src/.  Following the spec (an
event is shown iff the current verbosity is at least the event's minimum;
message text is shown at NORMAL, the liveness indicator at HIGH and above) the
suffix `_n` stands for NORMAL, `_v` for HIGH and `_vv` for DEBUG.  `cout` and
`cerr` are unconditional; `DBG` goes to the log, never to the operator. -/
def shown (v : Verbosity) : Chan → Option Sink
  | .cout => some .stdout
  | .cerr => some .stderr
  | .cout_n => if Verbosity.NORMAL ≤ v then some .stdout else none
  | .cout_v => if Verbosity.HIGH ≤ v then some .stdout else none
  | .cerr_vv => if Verbosity.DEBUG ≤ v then some .stderr else none
  | .DBG => none

/-- Outcome returned to the engine on a problem (engine-defined enum). -/
inductive Action where
  | ABORT
  | RETRY
  | IGNORE
  deriving DecidableEq

/-- Prompt identifiers used by the receivers; the enum lives in
`output/prompt.h`.  Modelled from the spec: that header is not under src/; the
spec calls the two ids a removal-specific and a dedicated install-problem id. -/
inductive PromptId where
  | PROMPT_ARI_RPM_REMOVE_PROBLEM
  | PROMPT_ARI_RPM_INSTALL_PROBLEM
  deriving DecidableEq

/-- The enum `InstallResolvableReport::RpmLevel`, the execution level at which the engine
attempted the install. -/
inductive RpmLevel where
  | RPM
  | RPM_NODEPS
  | RPM_NODEPS_FORCE
  deriving DecidableEq

/-- Numeric value of an `RpmLevel`, used for `<` and for table indexing. -/
def RpmLevel.toNat : RpmLevel → Nat
  | .RPM => 0
  | .RPM_NODEPS => 1
  | .RPM_NODEPS_FORCE => 2

/-- Engine error codes are opaque numbers; only `NO_ERROR` is distinguished. -/
abbrev Error := Nat

/-- The enumerator `NO_ERROR` of the engine's error enums. -/
def NO_ERROR : Error := 0

/-- The enum `ScriptResolvableReport::Notify`. -/
inductive Notify where
  | OUTPUT
  | PING
  deriving DecidableEq

/-- What the receivers read of a resolvable: its name, its edition, and `label`,
the text the engine's own stream operator prints for the resolvable. -/
structure Resolvable where
  name : String
  edition : String
  label : String

/-- What the receivers read of a message: `label`, the text the engine's stream
operator prints for the message object, and `text`, the message body. -/
structure Message where
  label : String
  text : String

/-- One executed statement with an effect outside the receiver. -/
inductive Event where
  /-- The statement `chan << text`; an `endl` is the text "\n". -/
  | put (chan : Chan) (text : String)
  /-- The statement `chan << cursor`: the liveness indicator at frame `frame`. -/
  | alive (chan : Chan) (frame : Nat)
  /-- Call of the helper `display_progress (id, chan, label, value)`. -/
  | display_progress (id : String) (chan : Chan) (label : String) (value : Int)
  /-- Call of the helper `display_done (id, chan)`. -/
  | display_done (id : String) (chan : Chan)
  /-- Call of the helper `display_error (error, reason)`. -/
  | display_error (error : Error) (reason : String)
  /-- Call of the helper `read_action_ari (pid, dflt)`. -/
  | read_action_ari (pid : PromptId) (dflt : Action)
  deriving DecidableEq

/-- The options `Zypper::instance()->globalOpts()`, as far as the receivers read
them. -/
structure GlobalOptions where
  verbosity : Verbosity
  machine_readable : Bool

/-- Everything a receiver method reads or changes. -/
structure World where
  /-- The global options. -/
  globalOpts : GlobalOptions
  /-- Operator input not yet consumed: one entry per answered prompt, `none`
  for an answer that is not recognised; the empty list is end of input. -/
  input : List (Option Action)
  /-- Statements executed so far, oldest first. -/
  trace : List Event
  /-- Steps taken by `static AliveCursor cursor` (header line 76). -/
  cursor : Nat
  /-- The variable `static int last = -1` (header line 118). -/
  last : Int

/-- The world at program start: nothing written, statics at their initialisers. -/
def World.init (opts : GlobalOptions) (input : List (Option Action)) : World :=
  { globalOpts := opts, input := input, trace := [], cursor := 0, last := -1 }

/-- Append one executed statement to the trace. -/
def World.emit (w : World) (e : Event) : World :=
  { w with trace := w.trace ++ [e] }

/-- The statement `chan << text`. -/
def World.put (w : World) (chan : Chan) (text : String) : World :=
  w.emit (.put chan text)

/-- The statement `chan << endl`. -/
def World.endl (w : World) (chan : Chan) : World :=
  w.put chan "\n"

/-! ## Reading a trace -/

/-- The texts of the `<<` statements of `es` that reach sink `s` at verbosity
`v`, in order. -/
def written (v : Verbosity) (s : Sink) : List Event → List String
  | [] => []
  | .put c t :: es => if shown v c = some s then t :: written v s es else written v s es
  | _ :: es => written v s es

/-- Number of liveness-indicator frames of `es` drawn on the terminal at
verbosity `v`. -/
def livenessRenders (v : Verbosity) : List Event → Nat
  | [] => 0
  | .alive c _ :: es => (if (shown v c).isSome then 1 else 0) + livenessRenders v es
  | _ :: es => livenessRenders v es

/-- Number of `display_error` calls in `es`. -/
def errorBlocks : List Event → Nat
  | [] => 0
  | .display_error _ _ :: es => 1 + errorBlocks es
  | _ :: es => errorBlocks es

/-- Number of `read_action_ari` calls in `es`. -/
def prompts : List Event → Nat
  | [] => 0
  | .read_action_ari _ _ :: es => 1 + prompts es
  | _ :: es => prompts es

/-- Number of `display_progress` calls in `es`. -/
def progressRenders : List Event → Nat
  | [] => 0
  | .display_progress _ _ _ _ :: es => 1 + progressRenders es
  | _ :: es => progressRenders es

/-- Whether `es` closes the progress span `id`. -/
def closesSpan (id : String) : List Event → Bool
  | [] => false
  | .display_done i _ :: es => i == id || closesSpan id es
  | _ :: es => closesSpan id es

/-- Whether executing `e` can put anything before the operator at verbosity `v`:
a `<<` statement does when its stream is shown, a helper call always may. -/
def visible (v : Verbosity) : Event → Bool
  | .put c _ => (shown v c).isSome
  | .alive c _ => (shown v c).isSome
  | _ => true

/-- The statements of `es` that can put anything before the operator. -/
def rendered (v : Verbosity) (es : List Event) : List Event :=
  es.filter (visible v)

/-- Number of raw-output statements (`cout_n << output`) of `es` that are shown
at verbosity `v`. -/
def rawOutputRenders (v : Verbosity) : List Event → Nat
  | [] => 0
  | .put .cout_n _ :: es => (if (shown v .cout_n).isSome then 1 else 0) + rawOutputRenders v es
  | _ :: es => rawOutputRenders v es

/-- The text on the error stream after the statements `es` at verbosity `v`,
where `de error reason` is the text the helper `display_error` prints. -/
def stderrText (de : Error → String → String) (v : Verbosity) : List Event → String
  | [] => ""
  | .put c t :: es => (if shown v c = some .stderr then t else "") ++ stderrText de v es
  | .display_error e r :: es => de e r ++ stderrText de v es
  | _ :: es => stderrText de v es

/-- The statements executed between world `w` and the later world `w1`. -/
def emitted (w w1 : World) : List Event :=
  w1.trace.drop w.trace.length

/-- The texts written to the error stream between `w` and `w1`. -/
def stderrOutput (w w1 : World) : List String :=
  written w1.globalOpts.verbosity .stderr (emitted w w1)

/-- The texts written to the output stream between `w` and `w1`. -/
def stdoutOutput (w w1 : World) : List String :=
  written w1.globalOpts.verbosity .stdout (emitted w w1)

/-! ## Helpers of the repository that the header calls -/

/-- Modelled from the spec: `read_action_ari` is declared in
`zypper-callbacks.h`, which is not under src/.  The Decision Resolver maps a
prompt id and a default to one Action: recognised operator input is returned,
unrecognised input or end of input yields the default. -/
def read_action_ari (pid : PromptId) (dflt : Action) (w : World) : Action × World :=
  let w1 := w.emit (.read_action_ari pid dflt)
  match w.input with
  | [] => (dflt, w1)
  | none :: rest => (dflt, { w1 with input := rest })
  | some a :: rest => (a, { w1 with input := rest })

/-- The table `level_s` of `operator<< (ostream&, RpmLevel)` (header lines
170-176); the translation call is the identity. -/
def level_s : RpmLevel → String
  | .RPM => ""
  | .RPM_NODEPS => "(with --nodeps)"
  | .RPM_NODEPS_FORCE => "(with --nodeps --force)"

/-! ## MessageResolvableReportReceiver (header lines 36-52) -/

/-- The method `MessageResolvableReportReceiver::show` (header lines 38-51). -/
def MessageResolvableReportReceiver.show (message : Message) (w : World) : World :=
  if !w.globalOpts.machine_readable then
    let w := (w.put .cout_v message.label).endl .cout_v
    let w := (w.put .cout_n message.text).endl .cout_n
    w
  else
    (((w.put .cout "<message type=\"info\">").put .cout message.text).put .cout
      "</message>").endl .cout

/-! ## ScriptResolvableReportReceiver (header lines 58-96) -/

/-- The method `ScriptResolvableReportReceiver::progress` (header lines 74-84).
The operand `cursor++` is evaluated whether or not `cout_v` shows anything, so
the static cursor steps on every PING. -/
def ScriptResolvableReportReceiver.progress (kind : Notify) (output : String)
    (w : World) : Bool × World :=
  if kind = .PING then
    let w1 := (w.put .cout_v "\r").emit (.alive .cout_v w.cursor)
    (true, { w1 with cursor := w.cursor + 1 })
  else
    (true, w.put .cout_n output)

/-- The method `ScriptResolvableReportReceiver::problem` (header lines 86-89). -/
def ScriptResolvableReportReceiver.problem (description : String) (w : World) : World :=
  (((w.emit (.display_done "run-script" .cout_n)).put .cerr description).endl .cerr)

/-- The method `ScriptResolvableReportReceiver::finish` (header lines 92-94). -/
def ScriptResolvableReportReceiver.finish (w : World) : World :=
  w.emit (.display_done "run-script" .cout_n)

/-! ## ScanRpmDbReceive (header lines 99-135) -/

/-- The members of `ScanRpmDbReceive` (header lines 101-102); `_step` is a
reference to the owner's step counter, kept here by value. -/
structure ScanRpmDbReceive where
  _step : Int
  last_reported : Int

/-- The method `ScanRpmDbReceive::progress` (header lines 115-123). -/
def ScanRpmDbReceive.progress (_self : ScanRpmDbReceive) (value : Int) (w : World) :
    Bool × World :=
  let w1 :=
    if w.last ≠ value then
      w.emit (.display_progress "read-installed-packages" .cout_n
        "Reading installed packages" value)
    else w
  (true, { w1 with last := value })

/-- The method `ScanRpmDbReceive::start` (header lines 109-113). -/
def ScanRpmDbReceive.start (self : ScanRpmDbReceive) (w : World) :
    ScanRpmDbReceive × World :=
  let self1 := { self with last_reported := 0 }
  (self1, (self1.progress 0 w).2)

/-- The method `ScanRpmDbReceive::problem` (header lines 125-128): the call of
the base class method `ScanDBReport::problem`, the engine's default policy,
which is passed in as `base`. -/
def ScanRpmDbReceive.problem (_self : ScanRpmDbReceive)
    (base : Error → String → World → Action × World)
    (error : Error) (description : String) (w : World) : Action × World :=
  base error description w

/-- The method `ScanRpmDbReceive::finish` (header lines 130-134). -/
def ScanRpmDbReceive.finish (_self : ScanRpmDbReceive) (error : Error) (reason : String)
    (w : World) : World :=
  (w.emit (.display_done "read-installed-packages" .cout_n)).emit
    (.display_error error reason)

/-! ## RemoveResolvableReportReceiver (header lines 139-168) -/

/-- The method `RemoveResolvableReportReceiver::start` (header lines 141-146). -/
def RemoveResolvableReportReceiver.start (resolvable : Resolvable) (w : World) : World :=
  w.emit (.display_progress "remove-resolvable" .cout
    ("Removing " ++ resolvable.name ++ "-" ++ resolvable.edition) 0)

/-- The method `RemoveResolvableReportReceiver::progress` (header lines 148-154). -/
def RemoveResolvableReportReceiver.progress (value : Int) (resolvable : Resolvable)
    (w : World) : Bool × World :=
  (true, w.emit (.display_progress "remove-resolvable" .cout_n
    ("Removing " ++ resolvable.name ++ "-" ++ resolvable.edition) value))

/-- The method `RemoveResolvableReportReceiver::problem` (header lines 156-161). -/
def RemoveResolvableReportReceiver.problem (resolvable : Resolvable) (error : Error)
    (description : String) (w : World) : Action × World :=
  let w := (w.put .cerr ("Removal of " ++ resolvable.label ++ " failed:")).endl .cerr
  let w := w.emit (.display_error error description)
  read_action_ari .PROMPT_ARI_RPM_REMOVE_PROBLEM .ABORT w

/-- The method `RemoveResolvableReportReceiver::finish` (header lines 163-167). -/
def RemoveResolvableReportReceiver.finish (error : Error) (reason : String)
    (w : World) : World :=
  (w.emit (.display_done "remove-resolvable" .cout)).emit (.display_error error reason)

/-! ## InstallResolvableReportReceiver (header lines 180-242) -/

/-- The member of `InstallResolvableReportReceiver` (header line 182). -/
structure InstallResolvableReportReceiver where
  _resolvable : Option Resolvable

/-- The method `InstallResolvableReportReceiver::display_step` (header lines
184-190). -/
def InstallResolvableReportReceiver.display_step (resolvable : Resolvable) (value : Int)
    (w : World) : World :=
  let s := "Installing: " ++ resolvable.name ++ "-" ++ resolvable.edition
  w.emit (.display_progress "install-resolvable" .cout_n s value)

/-- The method `InstallResolvableReportReceiver::start` (header lines 192-200). -/
def InstallResolvableReportReceiver.start (_self : InstallResolvableReportReceiver)
    (resolvable : Resolvable) (w : World) : InstallResolvableReportReceiver × World :=
  let s := "Installing: " ++ resolvable.name ++ "-" ++ resolvable.edition
  ({ _resolvable := some resolvable },
    w.emit (.display_progress "install-resolvable" .cout s 0))

/-- The method `InstallResolvableReportReceiver::progress` (header lines 202-206). -/
def InstallResolvableReportReceiver.progress (value : Int) (resolvable : Resolvable)
    (w : World) : Bool × World :=
  (true, InstallResolvableReportReceiver.display_step resolvable value w)

/-- The text of the diagnostic trace of header line 212. -/
def retryMsg : String :=
  "Install failed, will retry more aggressively (with --no-deps, --force)."

/-- The method `InstallResolvableReportReceiver::problem` (header lines 208-223). -/
def InstallResolvableReportReceiver.problem (resolvable : Resolvable) (error : Error)
    (description : String) (level : RpmLevel) (w : World) : Action × World :=
  if level.toNat < RpmLevel.RPM_NODEPS_FORCE.toNat then
    let msg := retryMsg
    let w := (w.put .cerr_vv msg).endl .cerr_vv
    let w := (w.put .DBG msg).endl .DBG
    (.ABORT, w)
  else
    let w := (w.put .cerr ("Installation of " ++ resolvable.label ++ " failed:")).endl .cerr
    let w := (w.put .cerr (level_s level)).put .cerr " "
    let w := w.emit (.display_error error description)
    read_action_ari .PROMPT_ARI_RPM_INSTALL_PROBLEM .ABORT w

/-- The method `InstallResolvableReportReceiver::finish` (header lines 225-241). -/
def InstallResolvableReportReceiver.finish (error : Error) (_reason : String)
    (level : RpmLevel) (w : World) : World :=
  if error ≠ NO_ERROR ∧ level.toNat < RpmLevel.RPM_NODEPS_FORCE.toNat then
    (w.put .DBG "level < RPM_NODEPS_FORCE: aborting without displaying an error").endl .DBG
  else
    let w := w.emit (.display_done "install-resolvable" .cout)
    if error ≠ NO_ERROR then
      (((w.put .cerr (level_s level)).put .cerr " ").emit (.display_error error _reason))
    else w

/-! ## RpmCallbacks (header lines 249-280) -/

/-- The engine's escalation ladder on one install subject: `problem` is called
at RPM, then RPM_NODEPS, then RPM_NODEPS_FORCE.  Returns the three actions and
the worlds after the second and the third call. -/
def escalation (resolvable : Resolvable) (error : Error) (description : String)
    (w : World) : List Action × World × World :=
  let r1 := InstallResolvableReportReceiver.problem resolvable error description .RPM w
  let r2 := InstallResolvableReportReceiver.problem resolvable error description .RPM_NODEPS r1.2
  let r3 :=
    InstallResolvableReportReceiver.problem resolvable error description .RPM_NODEPS_FORCE r2.2
  ([r1.1, r2.1, r3.1], r2.2, r3.2)

/-- A run of script `progress` events, in order; returns the answers and the
final world. -/
def runScript : List (Notify × String) → World → List Bool × World
  | [], w => ([], w)
  | (kind, output) :: rest, w =>
    let r := ScriptResolvableReportReceiver.progress kind output w
    let rs := runScript rest r.2
    (r.1 :: rs.1, rs.2)

/-- A run of database-scan `progress` calls, in order, within one span. -/
def runScan (self : ScanRpmDbReceive) : List Int → World → World
  | [], w => w
  | value :: rest, w => runScan self rest (self.progress value w).2

/-- The values of a progress sequence that differ from their predecessor,
`prev` being the value reported before the first. -/
def debounce (prev : Int) : List Int → List Int
  | [] => []
  | value :: rest => (if prev ≠ value then [value] else []) ++ debounce value rest

/-- The install subject of the escalation scenario. -/
def foo : Resolvable := { name := "foo", edition := "1.0", label := "foo-1.0" }

/-- The statements `problem` executes below the final level. -/
def retryTrace : List Event :=
  [.put .cerr_vv retryMsg, .put .cerr_vv "\n", .put .DBG retryMsg, .put .DBG "\n"]

/-- The statements `problem` executes at the final level before it prompts. -/
def failureTrace (resolvable : Resolvable) (error : Error) (description : String)
    (level : RpmLevel) : List Event :=
  [.put .cerr ("Installation of " ++ resolvable.label ++ " failed:"), .put .cerr "\n",
    .put .cerr (level_s level), .put .cerr " ", .display_error error description]

/-- The one `display_progress` call of `ScanRpmDbReceive::progress`. -/
def scanRender (value : Int) : Event :=
  .display_progress "read-installed-packages" .cout_n "Reading installed packages" value

/-- A default policy that answers ABORT and renders nothing, as an engine whose
base `ScanDBReport::problem` only returns its answer. -/
def defaultPolicy (_error : Error) (_description : String) (w : World) : Action × World :=
  (.ABORT, w)

/-- A run of PING events, one per element of `outputs` (the text a PING carries
is not looked at). -/
def pingRun (outputs : List String) (w : World) : List Bool × World :=
  runScript (outputs.map fun o => (Notify.PING, o)) w

/-- The statements of `n` consecutive PING events, the cursor standing at `c`. -/
def pingTrace (c : Nat) : Nat → List Event
  | 0 => []
  | n + 1 => .put .cout_v "\r" :: .alive .cout_v c :: pingTrace (c + 1) n

/-! ## Basic facts -/

theorem Verbosity.le_iff (a b : Verbosity) : a ≤ b ↔ a.toNat ≤ b.toNat :=
  Iff.rfl

theorem emitted_append (w w1 : World) (es : List Event) (h : w1.trace = w.trace ++ es) :
    emitted w w1 = es := by
  simp [emitted, h]

theorem read_action_ari_trace (pid : PromptId) (dflt : Action) (w : World) :
    (read_action_ari pid dflt w).2.trace = w.trace ++ [.read_action_ari pid dflt] := by
  unfold read_action_ari
  rcases h : w.input with _ | ⟨a | a, rest⟩ <;> simp [World.emit]

theorem read_action_ari_opts (pid : PromptId) (dflt : Action) (w : World) :
    (read_action_ari pid dflt w).2.globalOpts = w.globalOpts := by
  unfold read_action_ari
  rcases h : w.input with _ | ⟨a | a, rest⟩ <;> simp [World.emit]

theorem read_action_ari_answer (pid : PromptId) (dflt : Action) (w : World) :
    (read_action_ari pid dflt w).1 = (w.input.head?.join).getD dflt := by
  unfold read_action_ari
  rcases h : w.input with _ | ⟨a | a, rest⟩ <;> simp

theorem level_lt_force (level : RpmLevel) :
    level.toNat < RpmLevel.RPM_NODEPS_FORCE.toNat ↔ level ≠ .RPM_NODEPS_FORCE := by
  cases level <;> simp [RpmLevel.toNat]

/-! ## InstallResolvableReportReceiver::problem -/

theorem install_problem_low (resolvable : Resolvable) (error : Error) (description : String)
    (level : RpmLevel) (w : World) (h : level ≠ .RPM_NODEPS_FORCE) :
    InstallResolvableReportReceiver.problem resolvable error description level w
      = (.ABORT, { w with trace := w.trace ++ retryTrace }) := by
  have h1 : level.toNat < RpmLevel.RPM_NODEPS_FORCE.toNat := (level_lt_force level).2 h
  simp [InstallResolvableReportReceiver.problem, h1, World.put, World.endl, World.emit,
    retryTrace]

theorem install_problem_force (resolvable : Resolvable) (error : Error) (description : String)
    (w : World) :
    InstallResolvableReportReceiver.problem resolvable error description .RPM_NODEPS_FORCE w
      = read_action_ari .PROMPT_ARI_RPM_INSTALL_PROBLEM .ABORT
          { w with trace := w.trace
              ++ failureTrace resolvable error description .RPM_NODEPS_FORCE } := by
  simp [InstallResolvableReportReceiver.problem, World.put, World.endl, World.emit,
    failureTrace]

theorem install_problem_opts (resolvable : Resolvable) (error : Error) (description : String)
    (level : RpmLevel) (w : World) :
    (InstallResolvableReportReceiver.problem resolvable error description level w).2.globalOpts
      = w.globalOpts := by
  by_cases h : level = .RPM_NODEPS_FORCE
  · subst h
    rw [install_problem_force, read_action_ari_opts]
  · rw [install_problem_low _ _ _ _ _ h]

theorem install_problem_emitted_low (resolvable : Resolvable) (error : Error)
    (description : String) (level : RpmLevel) (w : World) (h : level ≠ .RPM_NODEPS_FORCE) :
    emitted w (InstallResolvableReportReceiver.problem resolvable error description level w).2
      = retryTrace := by
  rw [install_problem_low _ _ _ _ _ h]
  exact emitted_append _ _ _ rfl

theorem install_problem_emitted_force (resolvable : Resolvable) (error : Error)
    (description : String) (w : World) :
    emitted w (InstallResolvableReportReceiver.problem resolvable error description
        .RPM_NODEPS_FORCE w).2
      = failureTrace resolvable error description .RPM_NODEPS_FORCE
          ++ [.read_action_ari .PROMPT_ARI_RPM_INSTALL_PROBLEM .ABORT] := by
  rw [install_problem_force]
  apply emitted_append
  rw [read_action_ari_trace]
  simp

/-- C1 (as amended): at RPM or RPM_NODEPS, `problem` executes exactly four
statements, the fixed retry trace and a newline on `cerr_vv` and the same on the
logger: it calls no helper, so neither the error nor the description is
rendered and nothing goes to the output stream; what can reach the operator is
the retry trace on the error stream, and only at verbosity DEBUG.  At
RPM_NODEPS_FORCE it writes the failure to the error stream at every verbosity,
calls `display_error` once and then prompts. -/
theorem install_problem_error_output (resolvable : Resolvable) (error : Error)
    (description : String) (level : RpmLevel) (w : World) :
    ((level = .RPM ∨ level = .RPM_NODEPS) →
      stderrOutput w
          (InstallResolvableReportReceiver.problem resolvable error description level w).2
        = (if Verbosity.DEBUG ≤ w.globalOpts.verbosity then [retryMsg, "\n"] else [])
      ∧ stdoutOutput w
          (InstallResolvableReportReceiver.problem resolvable error description level w).2 = []
      ∧ errorBlocks (emitted w
          (InstallResolvableReportReceiver.problem resolvable error description level w).2) = 0
      ∧ emitted w
          (InstallResolvableReportReceiver.problem resolvable error description level w).2
        = [.put .cerr_vv retryMsg, .put .cerr_vv "\n", .put .DBG retryMsg, .put .DBG "\n"]
      ∧ rendered w.globalOpts.verbosity (emitted w
          (InstallResolvableReportReceiver.problem resolvable error description level w).2)
        = (if Verbosity.DEBUG ≤ w.globalOpts.verbosity
            then [.put .cerr_vv retryMsg, .put .cerr_vv "\n"] else []))
    ∧ (level = .RPM_NODEPS_FORCE →
      stderrOutput w
          (InstallResolvableReportReceiver.problem resolvable error description level w).2
        = ["Installation of " ++ resolvable.label ++ " failed:", "\n",
            "(with --nodeps --force)", " "]
      ∧ errorBlocks (emitted w
          (InstallResolvableReportReceiver.problem resolvable error description level w).2)
        = 1
      ∧ emitted w
          (InstallResolvableReportReceiver.problem resolvable error description level w).2
        = [.put .cerr ("Installation of " ++ resolvable.label ++ " failed:"),
            .put .cerr "\n", .put .cerr "(with --nodeps --force)", .put .cerr " ",
            .display_error error description,
            .read_action_ari .PROMPT_ARI_RPM_INSTALL_PROBLEM .ABORT]) := by
  constructor
  · intro h
    have hl : level ≠ .RPM_NODEPS_FORCE := by rcases h with h | h <;> simp [h]
    simp only [stderrOutput, stdoutOutput, install_problem_opts,
      install_problem_emitted_low _ _ _ _ _ hl]
    cases hv : w.globalOpts.verbosity <;> decide
  · intro h
    subst h
    simp only [stderrOutput, install_problem_opts, install_problem_emitted_force]
    cases hv : w.globalOpts.verbosity <;>
      simp [failureTrace, written, shown, errorBlocks, level_s]

/-- Witness for C1: the amended statement at verbosity DEBUG, level RPM. -/
theorem install_problem_error_output_witness :
    stderrOutput (World.init ⟨.DEBUG, false⟩ [])
        (InstallResolvableReportReceiver.problem foo 1 "d" .RPM
          (World.init ⟨.DEBUG, false⟩ [])).2
      = [retryMsg, "\n"] :=
  ((install_problem_error_output foo 1 "d" .RPM (World.init ⟨.DEBUG, false⟩ [])).1
    (Or.inl rfl)).1

/-- C1 counterexample: at verbosity DEBUG a problem reported at level RPM writes
the retry trace to the error stream, so the error stream is not left empty. -/
theorem install_problem_low_writes_stderr :
    stderrOutput (World.init ⟨.DEBUG, false⟩ [])
        (InstallResolvableReportReceiver.problem foo 1 "d" .RPM
          (World.init ⟨.DEBUG, false⟩ [])).2
      ≠ [] := by
  decide

/-- C2: below RPM_NODEPS_FORCE `problem` returns ABORT, calls `read_action_ari`
not at all and leaves the operator input unread.  At RPM_NODEPS_FORCE the
result is exactly the call `read_action_ari (PROMPT_ARI_RPM_INSTALL_PROBLEM,
ABORT)` made after the failure is rendered: it is the one prompt and the last
statement, its action is what the resolver yields on the input at hand, and
when the resolver yields its default (no recognised input) the action is
ABORT. -/
theorem install_problem_action (resolvable : Resolvable) (error : Error)
    (description : String) (level : RpmLevel) (w : World) :
    (level.toNat < RpmLevel.RPM_NODEPS_FORCE.toNat →
      (InstallResolvableReportReceiver.problem resolvable error description level w).1
        = .ABORT
      ∧ prompts (emitted w
          (InstallResolvableReportReceiver.problem resolvable error description level w).2) = 0
      ∧ (InstallResolvableReportReceiver.problem resolvable error description level w).2.input
        = w.input)
    ∧ (level = .RPM_NODEPS_FORCE →
      (∃ w1 : World, w1.input = w.input ∧ w1.globalOpts = w.globalOpts
        ∧ w1.trace = w.trace ++ failureTrace resolvable error description level
        ∧ InstallResolvableReportReceiver.problem resolvable error description level w
          = read_action_ari .PROMPT_ARI_RPM_INSTALL_PROBLEM .ABORT w1)
      ∧ (InstallResolvableReportReceiver.problem resolvable error description level w).1
        = (read_action_ari .PROMPT_ARI_RPM_INSTALL_PROBLEM .ABORT w).1
      ∧ prompts (emitted w
          (InstallResolvableReportReceiver.problem resolvable error description level w).2) = 1
      ∧ (emitted w
          (InstallResolvableReportReceiver.problem resolvable error description level w).2).getLast?
        = some (.read_action_ari .PROMPT_ARI_RPM_INSTALL_PROBLEM .ABORT)
      ∧ (w.input.head?.join = none →
        (InstallResolvableReportReceiver.problem resolvable error description level w).1
          = .ABORT)) := by
  constructor
  · intro h
    have hl : level ≠ .RPM_NODEPS_FORCE := (level_lt_force level).1 h
    rw [install_problem_emitted_low _ _ _ _ _ hl, install_problem_low _ _ _ _ _ hl]
    exact ⟨rfl, by decide, rfl⟩
  · intro h
    subst h
    rw [install_problem_emitted_force]
    refine ⟨⟨{ w with trace := w.trace
        ++ failureTrace resolvable error description .RPM_NODEPS_FORCE }, rfl, rfl, rfl,
      install_problem_force _ _ _ _⟩, ?_, ?_, ?_, ?_⟩
    · rw [install_problem_force, read_action_ari_answer, read_action_ari_answer]
    · simp [failureTrace, prompts]
    · simp
    · intro hin
      rw [install_problem_force, read_action_ari_answer]
      show (w.input.head?.join).getD .ABORT = .ABORT
      rw [hin]
      rfl

/-- Witness for C2: no operator input at RPM_NODEPS_FORCE gives ABORT, and a
typed RETRY is returned as RETRY. -/
theorem install_problem_action_witness :
    (InstallResolvableReportReceiver.problem foo 1 "d" .RPM_NODEPS_FORCE
        (World.init ⟨.NORMAL, false⟩ [])).1 = .ABORT
    ∧ (InstallResolvableReportReceiver.problem foo 1 "d" .RPM_NODEPS_FORCE
        (World.init ⟨.NORMAL, false⟩ [some .RETRY])).1 = .RETRY
    ∧ (InstallResolvableReportReceiver.problem foo 1 "d" .RPM_NODEPS
        (World.init ⟨.NORMAL, false⟩ [some .RETRY])).1 = .ABORT :=
  ⟨((install_problem_action foo 1 "d" .RPM_NODEPS_FORCE
      (World.init ⟨.NORMAL, false⟩ [])).2 rfl).2.2.2.2 rfl,
    by decide,
    ((install_problem_action foo 1 "d" .RPM_NODEPS
      (World.init ⟨.NORMAL, false⟩ [some .RETRY])).1 (by decide)).1⟩

/-! ## InstallResolvableReportReceiver::finish -/

/-- C3: `finish` with an error below RPM_NODEPS_FORCE executes only the logger
statements: nothing can reach the output or error stream at any verbosity and
the span is not closed.  With an error at RPM_NODEPS_FORCE it closes the span
"install-resolvable", writes the level annotation to the error stream and calls
`display_error` exactly once.  With NO_ERROR, at any level, it closes the span
and does nothing else. -/
theorem install_finish_renders (error : Error) (reason : String) (level : RpmLevel)
    (w : World) :
    (error ≠ NO_ERROR → level.toNat < RpmLevel.RPM_NODEPS_FORCE.toNat →
      (∀ v, rendered v
        (emitted w (InstallResolvableReportReceiver.finish error reason level w)) = [])
      ∧ closesSpan "install-resolvable"
        (emitted w (InstallResolvableReportReceiver.finish error reason level w)) = false
      ∧ errorBlocks
        (emitted w (InstallResolvableReportReceiver.finish error reason level w)) = 0)
    ∧ (error ≠ NO_ERROR → level = .RPM_NODEPS_FORCE →
      emitted w (InstallResolvableReportReceiver.finish error reason level w)
        = [.display_done "install-resolvable" .cout, .put .cerr "(with --nodeps --force)",
            .put .cerr " ", .display_error error reason]
      ∧ closesSpan "install-resolvable"
        (emitted w (InstallResolvableReportReceiver.finish error reason level w)) = true
      ∧ errorBlocks
        (emitted w (InstallResolvableReportReceiver.finish error reason level w)) = 1)
    ∧ (error = NO_ERROR →
      emitted w (InstallResolvableReportReceiver.finish error reason level w)
        = [.display_done "install-resolvable" .cout]
      ∧ closesSpan "install-resolvable"
        (emitted w (InstallResolvableReportReceiver.finish error reason level w)) = true
      ∧ errorBlocks
        (emitted w (InstallResolvableReportReceiver.finish error reason level w)) = 0
      ∧ stderrOutput w (InstallResolvableReportReceiver.finish error reason level w) = []) := by
  refine ⟨?_, ?_, ?_⟩
  · intro he hl
    have hem : emitted w (InstallResolvableReportReceiver.finish error reason level w)
        = [.put .DBG "level < RPM_NODEPS_FORCE: aborting without displaying an error",
            .put .DBG "\n"] := by
      apply emitted_append
      simp [InstallResolvableReportReceiver.finish, he, hl, World.put, World.endl, World.emit]
    rw [hem]
    refine ⟨?_, by decide, by decide⟩
    intro v
    cases v <;> decide
  · intro he hl
    subst hl
    have hem : emitted w
        (InstallResolvableReportReceiver.finish error reason .RPM_NODEPS_FORCE w)
        = [.display_done "install-resolvable" .cout, .put .cerr "(with --nodeps --force)",
            .put .cerr " ", .display_error error reason] := by
      apply emitted_append
      simp [InstallResolvableReportReceiver.finish, he, RpmLevel.toNat, World.put,
        World.emit, level_s]
    rw [hem]
    exact ⟨rfl, by simp [closesSpan], by simp [errorBlocks]⟩
  · intro he
    have hem : emitted w (InstallResolvableReportReceiver.finish error reason level w)
        = [.display_done "install-resolvable" .cout] := by
      apply emitted_append
      simp [InstallResolvableReportReceiver.finish, he, World.emit]
    have hopts : (InstallResolvableReportReceiver.finish error reason level w).globalOpts
        = w.globalOpts := by
      simp [InstallResolvableReportReceiver.finish, he, World.emit]
    rw [stderrOutput, hem]
    exact ⟨rfl, by decide, by decide, by simp [written]⟩

/-- Witness for C3: the three cases at concrete inputs. -/
theorem install_finish_renders_witness :
    (∀ v, rendered v (emitted (World.init ⟨.DEBUG, false⟩ [])
      (InstallResolvableReportReceiver.finish 1 "r" .RPM_NODEPS
        (World.init ⟨.DEBUG, false⟩ []))) = [])
    ∧ errorBlocks (emitted (World.init ⟨.QUIET, false⟩ [])
      (InstallResolvableReportReceiver.finish 1 "r" .RPM_NODEPS_FORCE
        (World.init ⟨.QUIET, false⟩ []))) = 1
    ∧ emitted (World.init ⟨.NORMAL, false⟩ [])
      (InstallResolvableReportReceiver.finish NO_ERROR "" .RPM
        (World.init ⟨.NORMAL, false⟩ []))
      = [.display_done "install-resolvable" .cout] :=
  ⟨((install_finish_renders 1 "r" .RPM_NODEPS (World.init ⟨.DEBUG, false⟩ [])).1
      (by decide) (by decide)).1,
    ((install_finish_renders 1 "r" .RPM_NODEPS_FORCE (World.init ⟨.QUIET, false⟩ [])).2.1
      (by decide) rfl).2.2,
    ((install_finish_renders NO_ERROR "" .RPM (World.init ⟨.NORMAL, false⟩ [])).2.2 rfl).1⟩

/-! ## The escalation scenario -/

theorem stderrText_failure (de : Error → String → String) (v : Verbosity)
    (resolvable : Resolvable) (error : Error) (description : String) (level : RpmLevel) :
    stderrText de v (failureTrace resolvable error description level
        ++ [.read_action_ari .PROMPT_ARI_RPM_INSTALL_PROBLEM .ABORT])
      = "Installation of " ++ resolvable.label ++ " failed:" ++ "\n" ++ level_s level ++ " "
          ++ de error description := by
  simp only [failureTrace, stderrText, shown, List.cons_append, List.nil_append, if_true,
    String.append_assoc, String.append_empty]

theorem escalation_third_emitted (resolvable : Resolvable) (error : Error)
    (description : String) (w : World) :
    emitted (escalation resolvable error description w).2.1
        (escalation resolvable error description w).2.2
      = failureTrace resolvable error description .RPM_NODEPS_FORCE
          ++ [.read_action_ari .PROMPT_ARI_RPM_INSTALL_PROBLEM .ABORT] := by
  simp only [escalation]
  exact install_problem_emitted_force _ _ _ _

/-- C4 (as amended): driving `problem` at RPM, RPM_NODEPS, RPM_NODEPS_FORCE with
no operator input returns ABORT three times.  Each of the first two calls
executes exactly the retry trace on `cerr_vv` and on the logger and calls no
helper, so it writes to the error stream only the retry trace, and only at
verbosity DEBUG.
The third call puts on the error stream the line "Installation of LABEL failed:",
a newline, the annotation "(with --nodeps --force)" and a blank, followed by
what `display_error` prints for the error and the description; it then prompts
once, with PROMPT_ARI_RPM_INSTALL_PROBLEM and default ABORT.  The annotations
are "", "(with --nodeps)" and "(with --nodeps --force)". -/
theorem escalation_scenario (resolvable : Resolvable) (error : Error) (description : String)
    (w : World) (h : w.input = []) :
    (escalation resolvable error description w).1 = [.ABORT, .ABORT, .ABORT]
    ∧ stderrOutput w
        (InstallResolvableReportReceiver.problem resolvable error description .RPM w).2
      = (if Verbosity.DEBUG ≤ w.globalOpts.verbosity then [retryMsg, "\n"] else [])
    ∧ stderrOutput
        (InstallResolvableReportReceiver.problem resolvable error description .RPM w).2
        (escalation resolvable error description w).2.1
      = (if Verbosity.DEBUG ≤ w.globalOpts.verbosity then [retryMsg, "\n"] else [])
    ∧ (∀ de v, stderrText de v (emitted (escalation resolvable error description w).2.1
          (escalation resolvable error description w).2.2)
        = "Installation of " ++ resolvable.label ++ " failed:" ++ "\n"
            ++ "(with --nodeps --force)" ++ " " ++ de error description)
    ∧ (emitted (escalation resolvable error description w).2.1
          (escalation resolvable error description w).2.2).getLast?
        = some (.read_action_ari .PROMPT_ARI_RPM_INSTALL_PROBLEM .ABORT)
    ∧ prompts (emitted w (escalation resolvable error description w).2.2) = 1
    ∧ level_s .RPM = "" ∧ level_s .RPM_NODEPS = "(with --nodeps)"
    ∧ level_s .RPM_NODEPS_FORCE = "(with --nodeps --force)"
    ∧ emitted w
        (InstallResolvableReportReceiver.problem resolvable error description .RPM w).2
      = [.put .cerr_vv retryMsg, .put .cerr_vv "\n", .put .DBG retryMsg, .put .DBG "\n"]
    ∧ emitted
        (InstallResolvableReportReceiver.problem resolvable error description .RPM w).2
        (escalation resolvable error description w).2.1
      = [.put .cerr_vv retryMsg, .put .cerr_vv "\n", .put .DBG retryMsg, .put .DBG "\n"]
    ∧ emitted (escalation resolvable error description w).2.1
        (escalation resolvable error description w).2.2
      = [.put .cerr ("Installation of " ++ resolvable.label ++ " failed:"),
          .put .cerr "\n", .put .cerr "(with --nodeps --force)", .put .cerr " ",
          .display_error error description,
          .read_action_ari .PROMPT_ARI_RPM_INSTALL_PROBLEM .ABORT]
    ∧ (∀ de, stderrText de w.globalOpts.verbosity (emitted w
          (escalation resolvable error description w).2.1)
        = (if Verbosity.DEBUG ≤ w.globalOpts.verbosity
            then retryMsg ++ "\n" ++ retryMsg ++ "\n" else "")) := by
  have h1 : InstallResolvableReportReceiver.problem resolvable error description .RPM w
      = (.ABORT, { w with trace := w.trace ++ retryTrace }) :=
    install_problem_low _ _ _ _ _ (by decide)
  have h2 : ∀ w1 : World,
      InstallResolvableReportReceiver.problem resolvable error description .RPM_NODEPS w1
        = (.ABORT, { w1 with trace := w1.trace ++ retryTrace }) :=
    fun w1 => install_problem_low _ _ _ _ _ (by decide)
  have ht2 : (escalation resolvable error description w).2.1.trace
      = w.trace ++ (retryTrace ++ retryTrace) := by
    simp only [escalation, h1, h2]
    simp
  refine ⟨?_, ?_, ?_, ?_, ?_, ?_, rfl, rfl, rfl, ?_, ?_, ?_, ?_⟩
  rotate_left 6
  · rw [h1]
    exact emitted_append _ _ _ rfl
  · simp only [escalation, h1, h2]
    exact emitted_append _ _ _ rfl
  · rw [escalation_third_emitted]
    rfl
  · intro de
    rw [emitted_append _ _ _ ht2]
    cases hv : w.globalOpts.verbosity <;>
      simp [retryTrace, stderrText, shown, Verbosity.le_iff, Verbosity.toNat,
        String.append_assoc]
  · simp only [escalation, h1, h2, install_problem_force, read_action_ari_answer, h]
    rfl
  · rw [h1, stderrOutput, emitted_append _ _ retryTrace rfl]
    cases hv : w.globalOpts.verbosity <;> decide
  · simp only [escalation, h1, h2]
    rw [stderrOutput, emitted_append _ _ retryTrace rfl]
    cases hv : w.globalOpts.verbosity <;> decide
  · intro de v
    rw [escalation_third_emitted, stderrText_failure]
    rfl
  · rw [escalation_third_emitted]
    simp
  · have ht : (escalation resolvable error description w).2.2.trace
        = w.trace ++ (retryTrace ++ retryTrace
            ++ failureTrace resolvable error description .RPM_NODEPS_FORCE
            ++ [.read_action_ari .PROMPT_ARI_RPM_INSTALL_PROBLEM .ABORT]) := by
      simp only [escalation, h1, h2, install_problem_force, read_action_ari_trace]
      simp
    rw [emitted_append _ _ _ ht]
    simp [retryTrace, failureTrace, prompts]

/-- Witness for C4: the scenario for foo-1.0 at verbosity NORMAL without input. -/
theorem escalation_scenario_witness :
    (World.init ⟨.NORMAL, false⟩ []).input = []
    ∧ (escalation foo 1 "d" (World.init ⟨.NORMAL, false⟩ [])).1 = [.ABORT, .ABORT, .ABORT] :=
  ⟨rfl, (escalation_scenario foo 1 "d" (World.init ⟨.NORMAL, false⟩ []) rfl).1⟩

/-- C4 counterexample: for foo-1.0 and the description "d", whatever text
`display_error` prints, the error stream after the third call does not read
"Installation of foo-1.0 failed (with --nodeps --force): d": the code ends the
first line after "failed:" and puts the annotation on the next. -/
theorem escalation_text_differs :
    ¬ ∃ de : Error → String → String,
      stderrText de .NORMAL
          (emitted (escalation foo 1 "d" (World.init ⟨.NORMAL, false⟩ [])).2.1
            (escalation foo 1 "d" (World.init ⟨.NORMAL, false⟩ [])).2.2)
        = "Installation of foo-1.0 failed (with --nodeps --force): d" := by
  rintro ⟨de, h⟩
  rw [escalation_third_emitted, stderrText_failure] at h
  have h2 := congrArg String.data h
  simp [foo, level_s] at h2

/-! ## ScanRpmDbReceive -/

theorem scan_progress_trace (self : ScanRpmDbReceive) (value : Int) (w : World) :
    (self.progress value w).2.trace
      = w.trace ++ (if w.last ≠ value then [scanRender value] else []) := by
  by_cases h : w.last = value <;> simp [ScanRpmDbReceive.progress, h, World.emit, scanRender]

theorem scan_progress_last (self : ScanRpmDbReceive) (value : Int) (w : World) :
    (self.progress value w).2.last = value := by
  simp [ScanRpmDbReceive.progress]

theorem runScan_trace (self : ScanRpmDbReceive) (values : List Int) (w : World) :
    (runScan self values w).trace = w.trace ++ (debounce w.last values).map scanRender := by
  induction values generalizing w with
  | nil => simp [runScan, debounce]
  | cons value rest ih =>
    rw [runScan, ih, scan_progress_trace, scan_progress_last, debounce]
    by_cases h : w.last = value <;> simp [h]

/-- C5 (as amended): every `progress` call returns true and renders iff its
value differs from the value of the progress call before it, whichever span
that call belonged to (-1 before the first call).  `start` is `progress (0)`: it
renders the initial 0% iff the value reported last is not 0, so always on the
first start of the process.  Within a span opened by `start`, the values
rendered are exactly those that differ from their predecessor in the span, the
predecessor of the first being the 0 of `start`: an unchanged value is never
rendered twice in a row and a changed value is always rendered. -/
theorem scan_progress_debounce (self : ScanRpmDbReceive) (value : Int) (values : List Int)
    (w : World) :
    (self.progress value w).1 = true
    ∧ (self.progress value w).2.last = value
    ∧ emitted w (self.progress value w).2 = (if w.last ≠ value then [scanRender value] else [])
    ∧ (progressRenders (emitted w (self.progress value w).2) = 1 ↔ w.last ≠ value)
    ∧ progressRenders (emitted (self.progress value w).2
        (self.progress value (self.progress value w).2).2) = 0
    ∧ emitted w (self.start w).2 = (if w.last ≠ 0 then [scanRender 0] else [])
    ∧ (self.start w).2.last = 0
    ∧ (self.start w).1.last_reported = 0
    ∧ emitted (self.start w).2 (runScan (self.start w).1 values (self.start w).2)
        = (debounce 0 values).map scanRender
    ∧ emitted (World.init w.globalOpts w.input) (self.start (World.init w.globalOpts w.input)).2
        = [scanRender 0] := by
  have hp : ∀ (s : ScanRpmDbReceive) (x : Int) (w1 : World),
      emitted w1 (s.progress x w1).2 = (if w1.last ≠ x then [scanRender x] else []) :=
    fun s x w1 => emitted_append _ _ _ (scan_progress_trace s x w1)
  refine ⟨rfl, scan_progress_last _ _ _, hp _ _ _, ?_, ?_, ?_, ?_, rfl, ?_, ?_⟩
  · rw [hp]
    by_cases h : w.last = value <;> simp [h, progressRenders, scanRender]
  · rw [hp, scan_progress_last]
    simp [progressRenders]
  · exact hp { self with last_reported := 0 } 0 w
  · exact scan_progress_last { self with last_reported := 0 } 0 w
  · apply emitted_append
    rw [runScan_trace]
    simp only [ScanRpmDbReceive.start, scan_progress_last]
  · rw [ScanRpmDbReceive.start, hp]
    simp [World.init]

/-- C5 counterexample: a first span that reports nothing after its start is
finished, and the start of the second span renders no 0%: the static `last`
still holds the 0 of the first span. -/
theorem scan_second_start_not_rendered :
    progressRenders
      (emitted
        (ScanRpmDbReceive.finish ⟨0, 0⟩ NO_ERROR ""
          (ScanRpmDbReceive.start ⟨0, 0⟩ (World.init ⟨.NORMAL, false⟩ [])).2)
        (ScanRpmDbReceive.start ⟨0, 0⟩
          (ScanRpmDbReceive.finish ⟨0, 0⟩ NO_ERROR ""
            (ScanRpmDbReceive.start ⟨0, 0⟩ (World.init ⟨.NORMAL, false⟩ [])).2)).2)
      = 0 := by
  decide

/-- C6 (as amended): `ScanRpmDbReceive::problem` returns exactly the action of
the engine's default policy for the same error and description and executes no
statement of its own: whatever is rendered, the default policy renders. -/
theorem scan_problem_delegates (self : ScanRpmDbReceive)
    (base : Error → String → World → Action × World) (error : Error)
    (description : String) (w : World) :
    (self.problem base error description w).1 = (base error description w).1
    ∧ emitted (base error description w).2 (self.problem base error description w).2 = []
    ∧ (self.problem base error description w).2.trace = (base error description w).2.trace := by
  simp [ScanRpmDbReceive.problem, emitted]

/-- C6 counterexample: with the default policy that answers ABORT silently,
`problem (1, "d")` executes no statement at all, so the description "d" is not
rendered. -/
theorem scan_problem_renders_nothing :
    emitted (World.init ⟨.DEBUG, false⟩ [])
        (ScanRpmDbReceive.problem ⟨0, 0⟩ defaultPolicy 1 "d"
          (World.init ⟨.DEBUG, false⟩ [])).2 = []
    ∧ (ScanRpmDbReceive.problem ⟨0, 0⟩ defaultPolicy 1 "d"
        (World.init ⟨.DEBUG, false⟩ [])).1 = .ABORT := by
  decide

/-! ## RemoveResolvableReportReceiver::problem -/

/-- C7: `RemoveResolvableReportReceiver::problem` first writes the failure line
to `cerr` (shown at every verbosity) and calls `display_error`, and then is
exactly the call `read_action_ari (PROMPT_ARI_RPM_REMOVE_PROBLEM, ABORT)`: that
call is the last statement and the only prompt, and the action returned is the
one it yields.  The removal prompt id differs from the install prompt id, and
when the resolver yields its default (no recognised input) the result is
ABORT. -/
theorem remove_problem_action (resolvable : Resolvable) (error : Error)
    (description : String) (w : World) :
    (∃ w1 : World, w1.input = w.input ∧ w1.globalOpts = w.globalOpts
      ∧ w1.trace = w.trace ++ [.put .cerr ("Removal of " ++ resolvable.label ++ " failed:"),
          .put .cerr "\n", .display_error error description]
      ∧ RemoveResolvableReportReceiver.problem resolvable error description w
        = read_action_ari .PROMPT_ARI_RPM_REMOVE_PROBLEM .ABORT w1)
    ∧ emitted w (RemoveResolvableReportReceiver.problem resolvable error description w).2
      = [.put .cerr ("Removal of " ++ resolvable.label ++ " failed:"), .put .cerr "\n",
          .display_error error description,
          .read_action_ari .PROMPT_ARI_RPM_REMOVE_PROBLEM .ABORT]
    ∧ (∀ v, written v .stderr
        (emitted w (RemoveResolvableReportReceiver.problem resolvable error description w).2)
      = ["Removal of " ++ resolvable.label ++ " failed:", "\n"])
    ∧ (RemoveResolvableReportReceiver.problem resolvable error description w).1
      = (read_action_ari .PROMPT_ARI_RPM_REMOVE_PROBLEM .ABORT w).1
    ∧ PromptId.PROMPT_ARI_RPM_REMOVE_PROBLEM ≠ PromptId.PROMPT_ARI_RPM_INSTALL_PROBLEM
    ∧ (w.input.head?.join = none →
      (RemoveResolvableReportReceiver.problem resolvable error description w).1 = .ABORT) := by
  have hdef : RemoveResolvableReportReceiver.problem resolvable error description w
      = read_action_ari .PROMPT_ARI_RPM_REMOVE_PROBLEM .ABORT
          { w with trace := w.trace
              ++ [.put .cerr ("Removal of " ++ resolvable.label ++ " failed:"),
                .put .cerr "\n", .display_error error description] } := by
    simp [RemoveResolvableReportReceiver.problem, World.put, World.endl, World.emit]
  have hem : emitted w
      (RemoveResolvableReportReceiver.problem resolvable error description w).2
      = [.put .cerr ("Removal of " ++ resolvable.label ++ " failed:"), .put .cerr "\n",
          .display_error error description,
          .read_action_ari .PROMPT_ARI_RPM_REMOVE_PROBLEM .ABORT] := by
    apply emitted_append
    rw [hdef, read_action_ari_trace]
    simp
  refine ⟨⟨{ w with trace := w.trace
      ++ [.put .cerr ("Removal of " ++ resolvable.label ++ " failed:"),
        .put .cerr "\n", .display_error error description] }, rfl, rfl, rfl, hdef⟩,
    hem, ?_, ?_, by decide, ?_⟩
  · intro v
    rw [hem]
    simp [written, shown]
  · rw [hdef, read_action_ari_answer, read_action_ari_answer]
  · intro hin
    rw [hdef, read_action_ari_answer]
    show (w.input.head?.join).getD .ABORT = .ABORT
    rw [hin]
    rfl

/-- Witness for C7: without operator input the removal problem answers ABORT,
and a typed IGNORE is returned as IGNORE. -/
theorem remove_problem_action_witness :
    (RemoveResolvableReportReceiver.problem foo 1 "d" (World.init ⟨.QUIET, false⟩ [])).1
      = .ABORT
    ∧ (RemoveResolvableReportReceiver.problem foo 1 "d"
        (World.init ⟨.QUIET, false⟩ [some .IGNORE])).1 = .IGNORE :=
  ⟨(remove_problem_action foo 1 "d" (World.init ⟨.QUIET, false⟩ [])).2.2.2.2.2 rfl,
    by decide⟩

/-! ## ScriptResolvableReportReceiver::progress -/

theorem pingRun_spec (outputs : List String) (w : World) :
    (pingRun outputs w).1 = List.replicate outputs.length true
    ∧ (pingRun outputs w).2.trace = w.trace ++ pingTrace w.cursor outputs.length
    ∧ (pingRun outputs w).2.cursor = w.cursor + outputs.length
    ∧ (pingRun outputs w).2.globalOpts = w.globalOpts := by
  induction outputs generalizing w with
  | nil => simp [pingRun, runScript, pingTrace]
  | cons o rest ih =>
    have h := ih (ScriptResolvableReportReceiver.progress .PING o w).2
    simp only [pingRun] at h ⊢
    simp only [List.map_cons, runScript, List.length_cons, List.replicate_succ, h]
    simp [ScriptResolvableReportReceiver.progress, World.put, World.emit, pingTrace]
    omega

theorem pingTrace_liveness (v : Verbosity) (c n : Nat) :
    livenessRenders v (pingTrace c n) = (if Verbosity.HIGH ≤ v then n else 0) := by
  induction n generalizing c with
  | zero => simp [pingTrace, livenessRenders]
  | succ n ih =>
    simp only [pingTrace, livenessRenders, ih, shown]
    by_cases h : Verbosity.HIGH ≤ v <;> simp [h]
    omega

theorem pingTrace_raw (v : Verbosity) (c n : Nat) :
    rawOutputRenders v (pingTrace c n) = 0 := by
  induction n generalizing c with
  | zero => simp [pingTrace, rawOutputRenders]
  | succ n ih => simp [pingTrace, rawOutputRenders, ih]

theorem pingTrace_rendered (v : Verbosity) (c n : Nat) (h : ¬ Verbosity.HIGH ≤ v) :
    rendered v (pingTrace c n) = [] := by
  induction n generalizing c with
  | zero => simp [pingTrace, rendered]
  | succ n ih =>
    have := ih (c + 1)
    simp only [rendered] at this ⊢
    simp [pingTrace, visible, shown, h, this]

theorem pingTrace_written (v : Verbosity) (c n : Nat) :
    written v .stdout (pingTrace c n)
      = (if Verbosity.HIGH ≤ v then List.replicate n "\r" else [])
    ∧ written v .stderr (pingTrace c n) = [] := by
  induction n generalizing c with
  | zero => simp [pingTrace, written]
  | succ n ih =>
    have h1 := (ih (c + 1)).1
    have h2 := (ih (c + 1)).2
    by_cases h : Verbosity.HIGH ≤ v <;>
      simp [pingTrace, written, shown, h, h1, h2, List.replicate_succ]

/-- C8: a run of n PING events (n the length of `outputs`) with no OUTPUT between
them draws the liveness indicator exactly n times and renders no raw output when
the verbosity is HIGH or above; at QUIET it renders nothing of either kind, and
nothing at all.  The statements of the run are exactly, per PING, a carriage
return and one indicator frame on `cout_v`, so the only text a PING run puts on
the output stream is carriage returns.  An OUTPUT event executes the one
statement `cout_n << output`,
the text unchanged (shown at NORMAL and above), and leaves the cursor where it
was.  Every call returns true. -/
theorem script_progress_renders (outputs : List String) (kind : Notify) (output : String)
    (w : World) :
    (Verbosity.HIGH ≤ w.globalOpts.verbosity →
      livenessRenders w.globalOpts.verbosity (emitted w (pingRun outputs w).2)
        = outputs.length
      ∧ rawOutputRenders w.globalOpts.verbosity (emitted w (pingRun outputs w).2) = 0)
    ∧ (w.globalOpts.verbosity = .QUIET →
      livenessRenders w.globalOpts.verbosity (emitted w (pingRun outputs w).2) = 0
      ∧ rawOutputRenders w.globalOpts.verbosity (emitted w (pingRun outputs w).2) = 0
      ∧ rendered w.globalOpts.verbosity (emitted w (pingRun outputs w).2) = [])
    ∧ (pingRun outputs w).1 = List.replicate outputs.length true
    ∧ emitted w (ScriptResolvableReportReceiver.progress .OUTPUT output w).2
      = [.put .cout_n output]
    ∧ (∀ v, Verbosity.NORMAL ≤ v → written v .stdout
        (emitted w (ScriptResolvableReportReceiver.progress .OUTPUT output w).2) = [output])
    ∧ (∀ v, livenessRenders v
        (emitted w (ScriptResolvableReportReceiver.progress .OUTPUT output w).2) = 0)
    ∧ (ScriptResolvableReportReceiver.progress .OUTPUT output w).2.cursor = w.cursor
    ∧ (ScriptResolvableReportReceiver.progress kind output w).1 = true
    ∧ emitted w (pingRun outputs w).2 = pingTrace w.cursor outputs.length
    ∧ (∀ v, written v .stdout (emitted w (pingRun outputs w).2)
        = (if Verbosity.HIGH ≤ v then List.replicate outputs.length "\r" else []))
    ∧ (∀ v, written v .stderr (emitted w (pingRun outputs w).2) = [])
    ∧ (pingRun outputs w).2.cursor = w.cursor + outputs.length := by
  have hem : emitted w (pingRun outputs w).2 = pingTrace w.cursor outputs.length :=
    emitted_append _ _ _ (pingRun_spec outputs w).2.1
  have hout : emitted w (ScriptResolvableReportReceiver.progress .OUTPUT output w).2
      = [.put .cout_n output] := by
    apply emitted_append
    simp [ScriptResolvableReportReceiver.progress, World.put, World.emit]
  rw [hem, hout]
  refine ⟨?_, ?_, (pingRun_spec outputs w).1, rfl, ?_, ?_, ?_, ?_, rfl,
    fun v => (pingTrace_written v _ _).1, fun v => (pingTrace_written v _ _).2,
    (pingRun_spec outputs w).2.2.1⟩
  · intro hv
    rw [pingTrace_liveness, pingTrace_raw]
    simp [hv]
  · intro hv
    rw [pingTrace_liveness, pingTrace_raw, pingTrace_rendered _ _ _ (by rw [hv]; decide), hv]
    simp [Verbosity.le_iff, Verbosity.toNat]
  · intro v hv
    simp [written, shown, hv]
  · intro v
    simp [livenessRenders]
  · simp [ScriptResolvableReportReceiver.progress, World.put, World.emit]
  · cases kind <;> simp [ScriptResolvableReportReceiver.progress]

/-- Witness for C8: five PING events at HIGH give five indicator renders and no
raw output; at QUIET nothing is rendered. -/
theorem script_progress_renders_witness :
    livenessRenders .HIGH (emitted (World.init ⟨.HIGH, false⟩ [])
      (pingRun ["", "", "", "", ""] (World.init ⟨.HIGH, false⟩ [])).2) = 5
    ∧ rawOutputRenders .HIGH (emitted (World.init ⟨.HIGH, false⟩ [])
      (pingRun ["", "", "", "", ""] (World.init ⟨.HIGH, false⟩ [])).2) = 0
    ∧ rendered .QUIET (emitted (World.init ⟨.QUIET, false⟩ [])
      (pingRun ["", "", "", "", ""] (World.init ⟨.QUIET, false⟩ [])).2) = [] :=
  ⟨((script_progress_renders ["", "", "", "", ""] .PING "" (World.init ⟨.HIGH, false⟩ [])).1
      (by decide)).1,
    ((script_progress_renders ["", "", "", "", ""] .PING "" (World.init ⟨.HIGH, false⟩ [])).1
      (by decide)).2,
    ((script_progress_renders ["", "", "", "", ""] .PING "" (World.init ⟨.QUIET, false⟩ [])).2.1
      rfl).2.2⟩

/-! ## MessageResolvableReportReceiver::show -/

/-- C9: in human mode `show` writes only through the conditional streams: the
message text and a newline through `cout_n`, so at NORMAL verbosity exactly the
text line appears, and nothing is written on the plain `cout`, where the
`<message>` element would go.  In machine-readable mode it writes on the plain
`cout` exactly `<message type="info">`, the text, `</message>` and a newline, at
every verbosity, and nothing through `cout_n` or `cout_v`.  So the two
renderings are never both emitted. -/
theorem message_show_exclusive (message : Message) (w : World) :
    (w.globalOpts.machine_readable = false →
      emitted w (MessageResolvableReportReceiver.show message w)
        = [.put .cout_v message.label, .put .cout_v "\n", .put .cout_n message.text,
            .put .cout_n "\n"]
      ∧ written .NORMAL .stdout (emitted w (MessageResolvableReportReceiver.show message w))
        = [message.text, "\n"]
      ∧ written .QUIET .stdout (emitted w (MessageResolvableReportReceiver.show message w))
        = []
      ∧ (∀ t, Event.put .cout t ∉ emitted w (MessageResolvableReportReceiver.show message w)))
    ∧ (w.globalOpts.machine_readable = true →
      emitted w (MessageResolvableReportReceiver.show message w)
        = [.put .cout "<message type=\"info\">", .put .cout message.text,
            .put .cout "</message>", .put .cout "\n"]
      ∧ (∀ v, written v .stdout (emitted w (MessageResolvableReportReceiver.show message w))
        = ["<message type=\"info\">", message.text, "</message>", "\n"])
      ∧ (∀ t, Event.put .cout_n t ∉ emitted w (MessageResolvableReportReceiver.show message w)
        ∧ Event.put .cout_v t ∉ emitted w (MessageResolvableReportReceiver.show message w)))
    ∧ ¬ ((∃ t, Event.put .cout t ∈ emitted w (MessageResolvableReportReceiver.show message w))
      ∧ (∃ t, Event.put .cout_n t
        ∈ emitted w (MessageResolvableReportReceiver.show message w))) := by
  have hh : w.globalOpts.machine_readable = false →
      emitted w (MessageResolvableReportReceiver.show message w)
        = [.put .cout_v message.label, .put .cout_v "\n", .put .cout_n message.text,
            .put .cout_n "\n"] := by
    intro h
    apply emitted_append
    simp [MessageResolvableReportReceiver.show, h, World.put, World.endl, World.emit]
  have hm : w.globalOpts.machine_readable = true →
      emitted w (MessageResolvableReportReceiver.show message w)
        = [.put .cout "<message type=\"info\">", .put .cout message.text,
            .put .cout "</message>", .put .cout "\n"] := by
    intro h
    apply emitted_append
    simp [MessageResolvableReportReceiver.show, h, World.put, World.endl, World.emit]
  refine ⟨?_, ?_, ?_⟩
  · intro h
    rw [hh h]
    refine ⟨rfl, by simp [written, shown, Verbosity.le_iff, Verbosity.toNat],
      by simp [written, shown, Verbosity.le_iff, Verbosity.toNat], ?_⟩
    intro t
    simp
  · intro h
    rw [hm h]
    refine ⟨rfl, ?_, ?_⟩
    · intro v
      simp [written, shown]
    · intro t
      simp
  · cases h : w.globalOpts.machine_readable
    · rw [hh h]
      simp
    · rw [hm h]
      simp

/-- Witness for C9: one message in human mode at NORMAL and in machine-readable
mode at QUIET. -/
theorem message_show_exclusive_witness :
    written .NORMAL .stdout (emitted (World.init ⟨.NORMAL, false⟩ [])
      (MessageResolvableReportReceiver.show ⟨"[message]important-msg-1.0-1", "hello"⟩
        (World.init ⟨.NORMAL, false⟩ []))) = ["hello", "\n"]
    ∧ written .QUIET .stdout (emitted (World.init ⟨.QUIET, true⟩ [])
      (MessageResolvableReportReceiver.show ⟨"[message]important-msg-1.0-1", "hello"⟩
        (World.init ⟨.QUIET, true⟩ [])))
      = ["<message type=\"info\">", "hello", "</message>", "\n"] :=
  ⟨((message_show_exclusive ⟨"[message]important-msg-1.0-1", "hello"⟩
      (World.init ⟨.NORMAL, false⟩ [])).1 rfl).2.1,
    ((message_show_exclusive ⟨"[message]important-msg-1.0-1", "hello"⟩
      (World.init ⟨.QUIET, true⟩ [])).2.1 rfl).2.1 .QUIET⟩

/-! ## RpmCallbacks -/

end Zypper
